import Mathlib

/-!
Shallow embedding of the trippe client library (src/index.js, current
revision, and src/src/index.js, the earlier revision) in Lean 4.

Modelling conventions:
* Calendar dates handled through dayjs diff/add arithmetic are embedded as
  integers counting days: `dayjs(endDate).diff(dayjs(startDate), 'day')`
  on two `YYYY-MM-DD` strings is exactly `endDate - startDate` on day
  numbers, and the `T00:00:00Z` suffix appended when comparing rate-window
  start dates is a bijective decoration, so string equality of decorated
  dates coincides with equality of the day numbers.
* JSON numbers are rationals; `NaN` is modelled by the `JsNumber.nan`
  constructor where it can arise (`parseFloat` of a non-numeric string).
* A JSON field whose presence is tested with the JavaScript `in` operator
  or by truthiness is modelled as an `Option` field: `none` is an absent
  field, `some v` a present one.
* A promise chain is modelled as an `Except JsErr` computation; feeding it
  a transport-level failure (`Upstream.transportError`) instead of a parsed
  payload models `got` rejecting (non-2xx response or network error).
  `JsErr.transport` is a raw transport exception reaching the caller
  unwrapped; `JsErr.error` is a `new Error(message)` thrown by the library
  itself.
* Each public operation is split at the network boundary: a `...Validate`
  function performing everything the JavaScript method does synchronously
  before issuing the request (returning the request data on success), and a
  `...Normalize` function for the `.then`/`.catch` chain applied to the
  upstream response.  The `...Run` composition only reaches the response
  when validation has succeeded, which is how "no network call is issued"
  is expressed.
-/

deriving instance DecidableEq for Except

namespace Trippe

/-- Error values a method invocation can reject with: `error` is a thrown
`new Error(message)`, `typeError` and `rangeError` are runtime exceptions
raised by the JavaScript semantics, and `transport` is a raw `got`
request error (carrying its `code` property) leaked without wrapping. -/
inductive JsErr where
  | error (message : String)
  | typeError (message : String)
  | rangeError (message : String)
  | transport (code : String)
deriving DecidableEq

/-- Rendering of an error object interpolated into a string, as happens in
`new Error(err)` where `err` is an exception object. -/
def jsErrString : JsErr → String
  | .error m => "Error: " ++ m
  | .typeError m => "TypeError: " ++ m
  | .rangeError m => "RangeError: " ++ m
  | .transport c => "RequestError: " ++ c

/-- The `code` property of an error object: transport errors carry their
code, other errors have no `code` property. -/
def jsErrCode : JsErr → Option String
  | .transport c => some c
  | _ => none

/-- Outcome of one upstream HTTP call: either a parsed payload of shape
`α` (a 2xx response whose body was decoded) or a transport-level failure
rejecting the promise returned by `got`. -/
inductive Upstream (α : Type) where
  | ok (payload : α)
  | transportError (code : String)
deriving DecidableEq

/-- A JavaScript number that may be `NaN` (as produced by `parseFloat` on
a non-numeric string); finite values are rationals. -/
inductive JsNumber where
  | nan
  | num (q : ℚ)
deriving DecidableEq

/-- Value of a decimal digit character. -/
def charDigit (c : Char) : Nat := c.toNat - 48

/-- Natural number denoted by a list of decimal digit characters. -/
def digitsToNat (ds : List Char) : Nat :=
  ds.foldl (fun a c => 10 * a + charDigit c) 0

/-- Unsigned part of JavaScript `parseFloat`: longest prefix of the form
`digits [ . digits ]`; `NaN` when no digit is found.  Exponent notation is
not modelled: the upstream amounts parsed by the library are plain decimal
strings. -/
def parseFloatCore (cs : List Char) : JsNumber :=
  let ip := cs.takeWhile Char.isDigit
  let rest := cs.dropWhile Char.isDigit
  let fp := match rest with
    | '.' :: r => r.takeWhile Char.isDigit
    | _ => []
  if ip.isEmpty && fp.isEmpty then .nan
  else .num ((digitsToNat ip : ℚ) + (digitsToNat fp : ℚ) / ((10 : ℚ) ^ fp.length))

/-- JavaScript `parseFloat`: skip leading spaces, optional sign, then the
longest numeric prefix; `NaN` when no digits are present. -/
def jsParseFloat (s : String) : JsNumber :=
  match s.data.dropWhile (fun c => c = ' ') with
  | '-' :: rest =>
    match parseFloatCore rest with
    | .nan => .nan
    | .num q => .num (-q)
  | '+' :: rest => parseFloatCore rest
  | cs => parseFloatCore cs

/-- Unsigned whole-string numeric parse used by the JavaScript `Number`
coercion: the entire remaining input must be `digits [ . digits ]`. -/
def parseNumberFull (cs : List Char) : JsNumber :=
  let ip := cs.takeWhile Char.isDigit
  let rest := cs.dropWhile Char.isDigit
  match rest with
  | [] => if ip.isEmpty then .nan else .num (digitsToNat ip)
  | '.' :: r =>
    let fp := r.takeWhile Char.isDigit
    let rest2 := r.dropWhile Char.isDigit
    if rest2.isEmpty && !(ip.isEmpty && fp.isEmpty) then
      .num ((digitsToNat ip : ℚ) + (digitsToNat fp : ℚ) / ((10 : ℚ) ^ fp.length))
    else .nan
  | _ => .nan

/-- JavaScript `Number(string)` coercion on decimal strings: trimmed empty
string is `0`, otherwise an optionally signed decimal consumed in full;
anything else is `NaN` (hexadecimal and exponent forms are not modelled). -/
def jsStringToNumber (s : String) : JsNumber :=
  let cs := ((s.data.dropWhile (fun c => c = ' ')).reverse.dropWhile (fun c => c = ' ')).reverse
  match cs with
  | [] => .num 0
  | '-' :: rest =>
    match parseNumberFull rest with
    | .nan => .nan
    | .num q => .num (-q)
  | '+' :: rest => parseNumberFull rest
  | _ => parseNumberFull cs

/-- An untyped JavaScript value, restricted to the shapes that can reach
the option fields of the library (numbers, `NaN`, strings, `undefined`). -/
inductive JsValue where
  | num (q : ℚ)
  | nan
  | str (s : String)
  | undef
deriving DecidableEq

/-- The `ToNumber` coercion applied by JavaScript relational operators. -/
def JsValue.toNumber : JsValue → JsNumber
  | .num q => .num q
  | .nan => .nan
  | .str s => jsStringToNumber s
  | .undef => .nan

/-- The JavaScript comparison `v > q`: coerce `v` to a number; any
comparison involving `NaN` is false. -/
def jsGreaterThan (v : JsValue) (q : ℚ) : Bool :=
  match v.toNumber with
  | .nan => false
  | .num x => decide (q < x)

/-- The JavaScript `typeof v === 'number'` test (true for `NaN` too). -/
def jsTypeofNumber : JsValue → Bool
  | .num _ => true
  | .nan => true
  | _ => false

/-- JavaScript `String.prototype.toUpperCase` on the ASCII strings the
library applies it to (hotel codes and distance units). -/
def jsToUpperCase (s : String) : String := String.mk (s.data.map Char.toUpper)

/-- `Math.min(...values)` followed by the `x < Infinity ? x : null` guard
used in the price calendar: the spread of an empty list gives `Infinity`,
which the guard converts to `null` (`none`); a non-empty list of finite
JSON numbers gives its finite minimum, which passes the guard. -/
def jsMinList : List ℚ → Option ℚ
  | [] => none
  | x :: xs =>
    match jsMinList xs with
    | none => some x
    | some m => some (min x m)

/-- Length check performed by `new Array(n)`: a negative length raises
`RangeError: Invalid array length`. -/
def jsNewArrayLen (n : Int) : Except JsErr Nat :=
  if n < 0 then .error (.rangeError "Invalid array length") else .ok n.toNat

/-- JavaScript `Array.prototype.map` under a callback that can throw,
aborting at the first exception. -/
def exceptMap (f : α → Except ε β) : List α → Except ε (List β)
  | [] => .ok []
  | x :: xs =>
    match f x with
    | .error e => .error e
    | .ok y =>
      match exceptMap f xs with
      | .error e => .error e
      | .ok ys => .ok (y :: ys)

/-! ### Upstream payload of the availability windows endpoint

Shared between `getLowestHotelPrices` (current revision) and
`getHotelPrices` (earlier revision): both call
`https://apis.ihg.com/availability/v1/windows` and read
`json.hotels[0]`, destructuring `currencyCode` and `rates` from it, where
each rate carries a `windows` array of rate windows. -/

/-- One upstream rate window.  `startDate` is the check-in day number (the
code compares the upstream string against `checkinDate + 'T00:00:00Z'`);
`totalPoints` and `totalAmount` model the optional fields whose presence
the code tests with the `in` operator. -/
structure RateWindow where
  startDate : Int
  totalPoints : Option ℚ
  totalAmount : Option ℚ
deriving DecidableEq

/-- One upstream rate plan entry, of which only `windows` is read. -/
structure HotelRate where
  windows : List RateWindow
deriving DecidableEq

/-- One hotel object of the windows payload. -/
structure WindowsHotel where
  currencyCode : String
  rates : List HotelRate
deriving DecidableEq

/-- Decoded JSON body of the windows endpoint. -/
structure WindowsPayload where
  hotels : List WindowsHotel
deriving DecidableEq

/-- The flattening `rates.flatMap(rate => rate.windows)`. -/
def ratesCombined (rates : List HotelRate) : List RateWindow :=
  rates.flatMap (fun rate => rate.windows)

namespace V2

/-! Current revision, `src/index.js`. -/

/-- One element of the `prices` array of `getLowestHotelPrices`. -/
structure LowestPriceDay where
  checkinDate : Int
  cashPrice : Option ℚ
  points : Option ℚ
deriving DecidableEq

/-- Resolved value of `getLowestHotelPrices`. -/
structure LowestHotelPrices where
  hotelCode : String
  currencyCode : String
  prices : List LowestPriceDay
deriving DecidableEq

/-- Request data computed before the network call of
`getLowestHotelPrices` (the hotel code is upper-cased into the URL). -/
structure HotelPricesRequest where
  hotelCode : String
  startDate : Int
  endDate : Int
deriving DecidableEq

/-- The body of the `dates.map(checkinDate => ...)` callback of
`getLowestHotelPrices` (src/index.js lines 189-198): for each optional
field, filter the combined windows to those whose start date matches the
check-in date and which carry the field, take `Math.min` of the present
values, and convert the empty-minimum `Infinity` sentinel to `null`. -/
def lowestPriceDay (rc : List RateWindow) (checkinDate : Int) : LowestPriceDay :=
  let points := jsMinList
    ((rc.filter (fun rate => rate.startDate == checkinDate && rate.totalPoints.isSome)).filterMap
      (fun rate => rate.totalPoints))
  let cashPrice := jsMinList
    ((rc.filter (fun rate => rate.startDate == checkinDate && rate.totalAmount.isSome)).filterMap
      (fun rate => rate.totalAmount))
  { checkinDate := checkinDate, cashPrice := cashPrice, points := points }

/-- Synchronous part of `getLowestHotelPrices` (src/index.js lines
157-176): missing hotel code check, day count, ceiling check of 62; on
success the request is issued. -/
def getLowestHotelPricesValidate (hotelCode : String) (startDate endDate : Int) :
    Except JsErr HotelPricesRequest :=
  if hotelCode = "" then .error (.error "hotelCode is required")
  else
    let days := endDate - startDate + 1
    if days > 62 then .error (.error "Please limit the number of days to 62 or less")
    else .ok { hotelCode := jsToUpperCase hotelCode, startDate := startDate, endDate := endDate }

/-- The `.then` chain of `getLowestHotelPrices` (src/index.js lines
178-206) applied to a response.  There is no `.catch`: a transport failure
propagates as the raw transport error.  `json.hotels[0]` on an empty
`hotels` array is `undefined`, and destructuring it throws a `TypeError`.
The `dates` array is built before the empty-currency check. -/
def getLowestHotelPricesNormalize (hotelCode : String) (startDate endDate : Int)
    (resp : Upstream WindowsPayload) : Except JsErr LowestHotelPrices :=
  match resp with
  | .transportError c => .error (.transport c)
  | .ok json =>
    match json.hotels.head? with
    | none => .error (.typeError "Cannot destructure property currencyCode of undefined")
    | some hotel =>
      let days := endDate - startDate + 1
      match jsNewArrayLen days with
      | .error e => .error e
      | .ok n =>
        let dates := (List.range n).map (fun (i : Nat) => startDate + (i : Int))
        if hotel.currencyCode = "" then .error (.error "Unknown or invalid hotelCode")
        else
          let rc := ratesCombined hotel.rates
          .ok { hotelCode := hotelCode, currencyCode := hotel.currencyCode,
                prices := dates.map (lowestPriceDay rc) }

/-- Full pipeline of `getLowestHotelPrices`: the response is only reached
when validation has succeeded (no network call is issued otherwise). -/
def getLowestHotelPricesRun (hotelCode : String) (startDate endDate : Int)
    (resp : Upstream WindowsPayload) : Except JsErr LowestHotelPrices :=
  match getLowestHotelPricesValidate hotelCode startDate endDate with
  | .error e => .error e
  | .ok _ => getLowestHotelPricesNormalize hotelCode startDate endDate resp

end V2

namespace V1

/-! Earlier revision, `src/src/index.js`. -/

/-- One element of the flat list returned by `getHotelPrices`. -/
structure HotelPriceDay where
  hotelId : String
  checkinDate : Int
  cashPrice : Option ℚ
  currencyCode : String
  points : Option ℚ
deriving DecidableEq

/-- Synchronous part of `getHotelPrices` (src/src/index.js lines 62-85):
missing id check, day count, ceiling check of 60, and the `dates` array
(built before the request in this revision, so a negative day count raises
a `RangeError` here). -/
def getHotelPricesValidate (hotelId : String) (startDate endDate : Int) :
    Except JsErr (List Int) :=
  if hotelId = "" then .error (.error "hotelId is required")
  else
    let days := endDate - startDate + 1
    if days > 60 then .error (.error "Please limit the number of days to 60 or less")
    else
      match jsNewArrayLen days with
      | .error e => .error e
      | .ok n => .ok ((List.range n).map (fun (i : Nat) => startDate + (i : Int)))

/-- The `.then` chain of `getHotelPrices` (src/src/index.js lines 87-112)
applied to a response; no `.catch`, so transport failures propagate raw.
The zero-rates check guards this revision; the per-day minimums are the
same filter/`Math.min` expressions as in the current revision. -/
def getHotelPricesNormalize (hotelId : String) (dates : List Int)
    (resp : Upstream WindowsPayload) : Except JsErr (List HotelPriceDay) :=
  match resp with
  | .transportError c => .error (.transport c)
  | .ok json =>
    match json.hotels.head? with
    | none => .error (.typeError "Cannot destructure property currencyCode of undefined")
    | some hotel =>
      if hotel.rates.length = 0 then .error (.error "Unknown or invalid hotelId")
      else
        let rc := ratesCombined hotel.rates
        .ok (dates.map (fun checkinDate =>
          let day := V2.lowestPriceDay rc checkinDate
          { hotelId := hotelId, checkinDate := checkinDate, cashPrice := day.cashPrice,
            currencyCode := hotel.currencyCode, points := day.points }))

/-- Full pipeline of `getHotelPrices`. -/
def getHotelPricesRun (hotelId : String) (startDate endDate : Int)
    (resp : Upstream WindowsPayload) : Except JsErr (List HotelPriceDay) :=
  match getHotelPricesValidate hotelId startDate endDate with
  | .error e => .error e
  | .ok dates => getHotelPricesNormalize hotelId dates resp

end V1

/-! ### getHotelDetails (current revision, src/index.js lines 85-126) -/

/-- The static brand-code to brand-name table (src/index.js lines 8-28). -/
def brandCodes : List (String × String) :=
  [("ATWL", "Atwell Suites"), ("AVID", "avid Hotels"), ("CDLW", "Candlewood Suites"),
   ("HICP", "Crowne Plaza"), ("EVEN", "EVEN Hotels"), ("HOLI", "Holiday Inn"),
   ("HICV", "Holiday Inn Club Vacations"), ("HIEX", "Holiday Inn Express"),
   ("HEXS", "Holiday Inn Express & Suites"), ("INDG", "Hotel Indigo"),
   ("HLUX", "HUALUXE"), ("ICON", "InterContinental"), ("KIKI", "Kimpton"),
   ("MRMS", "Mr & Mrs Smith"), ("RGNT", "Regent"), ("SIXS", "Six Senses"),
   ("STAY", "Staybridge Suites"), ("LXLX", "Vignette Collection"), ("VXVX", "voco")]

/-- Upstream `profile.latLong`. -/
structure LatLong where
  longitude : ℚ
  latitude : ℚ
deriving DecidableEq

/-- Upstream `hotelInfo.profile`, restricted to the fields read. -/
structure HotelProfile where
  roomsIncludingSuitesCount : ℚ
  latLong : LatLong
  name : String
  shortDescription : String
  longDescription : String
deriving DecidableEq

/-- Upstream `hotelInfo.brandInfo`. -/
structure BrandInfo where
  brandCode : String
deriving DecidableEq

/-- Upstream `hotelInfo.location`. -/
structure HotelLocation where
  closestCity : String
deriving DecidableEq

/-- Upstream `address.country`. -/
structure CountryRef where
  code : String
deriving DecidableEq

/-- Upstream `address.state` object; `code` and `name` are optional
sub-fields whose presence the code tests with the `in` operator. -/
structure StateRef where
  code : Option String
  name : Option String
deriving DecidableEq

/-- Upstream `hotelInfo.address`.  `state` is optional: for some payloads
the address carries no state object at all. -/
structure HotelAddress where
  street1 : Option String
  street4 : Option String
  zip : String
  city : String
  state : Option StateRef
  country : CountryRef
  consumerFriendlyURL : Option String
deriving DecidableEq

/-- Upstream `json.hotelInfo` of the details endpoint. -/
structure HotelInfo where
  brandInfo : BrandInfo
  location : HotelLocation
  profile : HotelProfile
  address : HotelAddress
deriving DecidableEq

/-- The `description` sub-object of the result. -/
structure HotelDescription where
  long : String
  short : String
deriving DecidableEq

/-- Resolved value of `getHotelDetails`. -/
structure HotelDetails where
  hotelCode : String
  hotelName : String
  brandCode : String
  brandName : Option String
  description : HotelDescription
  numberOfRooms : ℚ
  closestCity : String
  street : List String
  postalCode : String
  city : String
  state : Option String
  country : String
  coordinates : List ℚ
  url : Option String
deriving DecidableEq

/-- The truthiness filter `[address.street1, address.street4].filter(d => d)`:
keep the present, non-empty street lines. -/
def jsCompactTruthy (l : List (Option String)) : List String :=
  l.filterMap (fun o => o.bind (fun s => if s = "" then none else some s))

/-- Body of the second `.then` of `getHotelDetails` (src/index.js lines
96-122).  The only subexpression that can throw is
`'code' in address.state`: when the address carries no state object this
is the `in` operator applied to `undefined`, a `TypeError`. -/
def getHotelDetailsBody (hotelCode : String) (info : HotelInfo) :
    Except JsErr HotelDetails :=
  match info.address.state with
  | none => .error (.typeError "Cannot use in operator to search for code in undefined")
  | some st =>
    .ok { hotelCode := hotelCode,
          hotelName := info.profile.name,
          brandCode := info.brandInfo.brandCode,
          brandName := brandCodes.lookup info.brandInfo.brandCode,
          description := { long := info.profile.longDescription,
                           short := info.profile.shortDescription },
          numberOfRooms := info.profile.roomsIncludingSuitesCount,
          closestCity := info.location.closestCity,
          street := jsCompactTruthy [info.address.street1, info.address.street4],
          postalCode := info.address.zip,
          city := info.address.city,
          state := st.code,
          country := info.address.country.code,
          coordinates := [info.profile.latLong.longitude, info.profile.latLong.latitude],
          url := info.address.consumerFriendlyURL.bind
            (fun u => if u = "" then none else some ("https://" ++ u)) }

/-- The `.then`/`.catch` chain of `getHotelDetails` (src/index.js lines
94-125).  Every failure — transport or thrown inside the `.then` — reaches
the `.catch`, which re-throws `new Error(...)`: the message is the fixed
domain message when the error carries the got non-2xx code, and the
stringified original error otherwise.  No raw transport error escapes. -/
def getHotelDetailsNormalize (hotelCode : String) (resp : Upstream HotelInfo) :
    Except JsErr HotelDetails :=
  let attempt : Except JsErr HotelDetails :=
    match resp with
    | .transportError c => .error (.transport c)
    | .ok info => getHotelDetailsBody hotelCode info
  match attempt with
  | .ok d => .ok d
  | .error e =>
    .error (.error (if jsErrCode e = some "ERR_NON_2XX_3XX_RESPONSE"
      then "Unknown or invalid hotelCode" else jsErrString e))

/-! ### getStayPrices (current revision, src/index.js lines 226-371) -/

/-- Upstream `rates.totalRate.average` of a product use. -/
structure TotalRateAverage where
  amountAfterTax : String
deriving DecidableEq

/-- Upstream `rates.totalRate` of a product use. -/
structure TotalRate where
  average : TotalRateAverage
deriving DecidableEq

/-- Upstream `rates` object of a product use. -/
structure ProductUseRates where
  totalRate : TotalRate
deriving DecidableEq

/-- One element of an offer's `productUses` array. -/
structure ProductUse where
  inventoryTypeCode : String
  rates : ProductUseRates
deriving DecidableEq

/-- Upstream `rewardNights.pointsOnly`. -/
structure PointsOnly where
  averageDailyPoints : ℚ
deriving DecidableEq

/-- One element of `rewardNights.pointsCash.options`. -/
structure PointsCashOption where
  averageDailyPoints : ℚ
  averageDailyCash : ℚ
deriving DecidableEq

/-- Upstream `rewardNights.pointsCash`; `options` is an optional field
tested with the `in` operator. -/
structure PointsCash where
  options : Option (List PointsCashOption)
deriving DecidableEq

/-- Upstream `rewardNights` block of a reward-night offer. -/
structure RewardNights where
  pointsOnly : PointsOnly
  pointsCash : PointsCash
deriving DecidableEq

/-- One element of `rateDetails.offers`; `rewardNights` presence is tested
with the `in` operator and marks the offer as a reward-night offer. -/
structure Offer where
  productUses : List ProductUse
  ratePlanCode : String
  rewardNights : Option RewardNights
deriving DecidableEq

/-- One points pricing option of the result (`{points, cashPrice}`). -/
structure RewardPricePoint where
  points : ℚ
  cashPrice : ℚ
deriving DecidableEq

/-- One element of the `prices` array of `getStayPrices`. -/
structure StayPriceEntry where
  productCode : String
  rateCode : String
  cashPrice : Option JsNumber
  points : Option (List RewardPricePoint)
deriving DecidableEq

namespace V2

/-- The `rateDetails.offers.map((offer) => ...)` callback of
`getStayPrices` (src/index.js lines 331-362).  `offer.productUses[0]` on
an empty array is `undefined` and reading it throws; a reward-night offer
gets `cashPrice: null` and a points list headed by the pure-points option
followed by the blended options in upstream order; a cash offer gets the
parsed tax-inclusive total and `points: null`. -/
def mapOffer (offer : Offer) : Except JsErr StayPriceEntry :=
  match offer.productUses.head? with
  | none => .error (.typeError "Cannot read properties of undefined")
  | some pu =>
    let productCode := pu.inventoryTypeCode
    let rateCode := offer.ratePlanCode
    match offer.rewardNights with
    | none =>
      .ok { productCode := productCode, rateCode := rateCode,
            cashPrice := some (jsParseFloat pu.rates.totalRate.average.amountAfterTax),
            points := none }
    | some rn =>
      let noCash : RewardPricePoint :=
        { points := rn.pointsOnly.averageDailyPoints, cashPrice := 0 }
      let cashOptions :=
        match rn.pointsCash.options with
        | some opts => opts.map (fun o =>
            ({ points := o.averageDailyPoints, cashPrice := o.averageDailyCash } :
              RewardPricePoint))
        | none => []
      .ok { productCode := productCode, rateCode := rateCode,
            cashPrice := none, points := some (noCash :: cashOptions) }

/-- The final `prices.sort((a, b) => a.ratePrice < b.ratePrice ? -1 : 1)`
(src/index.js line 368).  `ratePrice` does not exist on the mapped
entries, so the comparator evaluates `undefined < undefined`, which is
false, and returns `1` for every pair; under the engine's
insertion-based sort of short arrays such a constant comparator leaves
the order unchanged, modelled as the identity permutation. -/
def sortByRatePrice (l : List StayPriceEntry) : List StayPriceEntry := l

/-- The `prices` component of the `getStayPrices` result: map every offer
and apply the (no-op) sort. -/
def stayPricesOfOffers (offers : List Offer) : Except JsErr (List StayPriceEntry) :=
  (exceptMap mapOffer offers).map sortByRatePrice

end V2

/-! ### getLowestAreaPrices (current) and getAreaPrices (earlier)

`checkinDate` is kept as a string here because it is validated by format
(`dayjs(checkinDate, 'YYYY-MM-DD', true).isValid()`) rather than used in
arithmetic beyond a single add of one day. -/

/-- Number of days of a month in the Gregorian calendar. -/
def daysInMonth (y m : Nat) : Nat :=
  if m = 2 then (if (y % 4 = 0 && y % 100 ≠ 0) || y % 400 = 0 then 29 else 28)
  else if m = 4 ∨ m = 6 ∨ m = 9 ∨ m = 11 then 30 else 31

/-- The strict `dayjs(s, 'YYYY-MM-DD', true).isValid()` check: exactly the
ten-character digit pattern with dashes, denoting a real calendar date
(strict parsing rejects overflowing days such as a February 30th). -/
def isValidYMD (s : String) : Bool :=
  match s.data with
  | [y1, y2, y3, y4, '-', m1, m2, '-', d1, d2] =>
    [y1, y2, y3, y4, m1, m2, d1, d2].all Char.isDigit &&
      (let y := digitsToNat [y1, y2, y3, y4]
       let m := digitsToNat [m1, m2]
       let d := digitsToNat [d1, d2]
       decide (1 ≤ m) && decide (m ≤ 12) && decide (1 ≤ d) && decide (d ≤ daysInMonth y m))
  | _ => false

/-- Two-digit zero-padded rendering. -/
def pad2 (n : Nat) : String := if n < 10 then "0" ++ toString n else toString n

/-- Render a year-month-day triple as `YYYY-MM-DD` (four-digit years). -/
def formatYMD (y m d : Nat) : String :=
  toString y ++ "-" ++ pad2 m ++ "-" ++ pad2 d

/-- The `dayjs(checkinDate).add(1, 'day').format('YYYY-MM-DD')` step
computing the checkout date from a valid check-in date. -/
def addOneDayYMD (s : String) : String :=
  match s.data with
  | [y1, y2, y3, y4, '-', m1, m2, '-', d1, d2] =>
    let y := digitsToNat [y1, y2, y3, y4]
    let m := digitsToNat [m1, m2]
    let d := digitsToNat [d1, d2]
    if d < daysInMonth y m then formatYMD y m (d + 1)
    else if m < 12 then formatYMD y (m + 1) 1
    else formatYMD (y + 1) 1 1
  | _ => s

/-- Upstream `lowestPointsOnlyCost` object (present only when a
points-only option exists). -/
structure PointsCost where
  points : ℚ
deriving DecidableEq

/-- Upstream `lowestCashOnlyCost` object; the amount is a decimal
string fed to `parseFloat`. -/
structure CashCost where
  amountAfterTax : String
deriving DecidableEq

/-- One hotel object of the area offers payload, restricted to the fields
read. -/
structure AreaHotel where
  hotelMnemonic : String
  propertyCurrency : String
  availabilityStatus : String
  lowestPointsOnlyCost : Option PointsCost
  lowestCashOnlyCost : CashCost
deriving DecidableEq

/-- Decoded JSON body of the area offers endpoint. -/
structure AreaPayload where
  hotels : List AreaHotel
deriving DecidableEq

namespace V2

/-- One element of the `getLowestAreaPrices` result. -/
structure AreaPriceEntry where
  hotelCode : String
  cashPrice : JsNumber
  currencyCode : String
  points : Option ℚ
deriving DecidableEq

/-- Request body data of `getLowestAreaPrices`, restricted to the fields
the claims mention; `radius` is forwarded exactly as supplied. -/
structure AreaRequestBody where
  adults : ℚ
  children : ℚ
  radius : JsValue
  distanceUnit : String
  startDate : String
  endDate : String
  longitude : JsValue
  latitude : JsValue
deriving DecidableEq

/-- Synchronous part of `getLowestAreaPrices` (src/index.js lines
380-446): coordinates shape check, strict check-in date format check,
checkout computation, distance unit check, and the `radius > 100` check —
the only validation applied to the radius.  On success the request body
carries the given radius. -/
def getLowestAreaPricesValidate (coordinates : List JsValue) (radius : JsValue)
    (unit : String) (checkinDate : String) (adults children : ℚ) :
    Except JsErr AreaRequestBody :=
  if ¬ (coordinates.length = 2 ∧ coordinates.all jsTypeofNumber) then
    .error (.error "Invalid format used for coordinates, please use [lng, lat]")
  else if ¬ isValidYMD checkinDate then
    .error (.error "Invalid value for checkinDate (should be formatted as YYYY-MM-DD)")
  else if ¬ (["KM", "MI"].contains (jsToUpperCase unit)) then
    .error (.error "Wrong distance unit provided")
  else if jsGreaterThan radius 100 then
    .error (.error "The value of radius should not be greater than 100")
  else
    .ok { adults := adults, children := children, radius := radius,
          distanceUnit := jsToUpperCase unit, startDate := checkinDate,
          endDate := addOneDayYMD checkinDate,
          longitude := coordinates.getD 0 .undef, latitude := coordinates.getD 1 .undef }

/-- The mapping applied to each open hotel (src/index.js lines 451-463):
truthiness of `lowestPointsOnlyCost` selects points or `null`, and the
cash amount string is parsed with `parseFloat`. -/
def mapAreaHotel (h : AreaHotel) : AreaPriceEntry :=
  { hotelCode := h.hotelMnemonic,
    cashPrice := jsParseFloat h.lowestCashOnlyCost.amountAfterTax,
    currencyCode := h.propertyCurrency,
    points := h.lowestPointsOnlyCost.map (fun c => c.points) }

/-- The `.then` chain of `getLowestAreaPrices` (src/index.js lines
448-463): no `.catch`, so transport failures propagate raw; the hotel list
is filtered to availability status exactly `OPEN` and mapped. -/
def getLowestAreaPricesNormalize (resp : Upstream AreaPayload) :
    Except JsErr (List AreaPriceEntry) :=
  match resp with
  | .transportError c => .error (.transport c)
  | .ok json =>
    .ok ((json.hotels.filter (fun hotel => hotel.availabilityStatus == "OPEN")).map
      mapAreaHotel)

end V2

namespace V1

/-- One element of the `getAreaPrices` result (this revision repeats the
check-in date in every entry). -/
structure AreaPriceEntry where
  hotelId : String
  checkinDate : String
  cashPrice : JsNumber
  currencyCode : String
  points : Option ℚ
deriving DecidableEq

/-- Request body data of `getAreaPrices` (guest counts are fixed in this
revision). -/
structure AreaRequestBody where
  radius : JsValue
  distanceUnit : String
  startDate : String
  endDate : String
  longitude : JsValue
  latitude : JsValue
deriving DecidableEq

/-- Synchronous part of `getAreaPrices` (src/src/index.js lines 115-187):
the same four checks as the current revision, with `radius > 100` the only
radius validation. -/
def getAreaPricesValidate (coordinates : List JsValue) (radius : JsValue)
    (unit : String) (checkinDate : String) : Except JsErr AreaRequestBody :=
  if ¬ (coordinates.length = 2 ∧ coordinates.all jsTypeofNumber) then
    .error (.error "Invalid format used for coordinates, please use [lng, lat]")
  else if ¬ isValidYMD checkinDate then
    .error (.error "Invalid value for checkinDate (should be formatted as YYYY-MM-DD)")
  else if ¬ (["KM", "MI"].contains (jsToUpperCase unit)) then
    .error (.error "Wrong distance unit provided")
  else if jsGreaterThan radius 100 then
    .error (.error "The value of radius should not be greater than 100")
  else
    .ok { radius := radius, distanceUnit := jsToUpperCase unit, startDate := checkinDate,
          endDate := addOneDayYMD checkinDate,
          longitude := coordinates.getD 0 .undef, latitude := coordinates.getD 1 .undef }

/-- The mapping applied to each open hotel (src/src/index.js lines
186-199). -/
def mapAreaHotel (checkinDate : String) (h : AreaHotel) : AreaPriceEntry :=
  { hotelId := h.hotelMnemonic, checkinDate := checkinDate,
    cashPrice := jsParseFloat h.lowestCashOnlyCost.amountAfterTax,
    currencyCode := h.propertyCurrency,
    points := h.lowestPointsOnlyCost.map (fun c => c.points) }

/-- The `.then` chain of `getAreaPrices` (src/src/index.js lines 183-199):
no `.catch`; filter to availability status exactly `OPEN`, then map. -/
def getAreaPricesNormalize (checkinDate : String) (resp : Upstream AreaPayload) :
    Except JsErr (List AreaPriceEntry) :=
  match resp with
  | .transportError c => .error (.transport c)
  | .ok json =>
    .ok ((json.hotels.filter (fun hotel => hotel.availabilityStatus == "OPEN")).map
      (mapAreaHotel checkinDate))

end V1

/-! ### Helper lemmas -/

theorem jsMinList_eq_none_iff (l : List ℚ) : jsMinList l = none ↔ l = [] := by
  cases l with
  | nil => simp [jsMinList]
  | cons x xs =>
    simp only [jsMinList]
    cases jsMinList xs <;> simp

theorem jsMinList_mem {l : List ℚ} {q : ℚ} (h : jsMinList l = some q) : q ∈ l := by
  induction l generalizing q with
  | nil => simp [jsMinList] at h
  | cons x xs ih =>
    simp only [jsMinList] at h
    cases hxs : jsMinList xs with
    | none =>
      rw [hxs] at h
      simp at h
      simp [h]
    | some m =>
      rw [hxs] at h
      simp at h
      rcases le_total x m with hle | hle
      · rw [min_eq_left hle] at h
        simp [← h]
      · rw [min_eq_right hle] at h
        subst h
        exact List.mem_cons_of_mem _ (ih hxs)

theorem jsMinList_le {l : List ℚ} {q : ℚ} (h : jsMinList l = some q) :
    ∀ x ∈ l, q ≤ x := by
  induction l generalizing q with
  | nil => simp [jsMinList] at h
  | cons x xs ih =>
    simp only [jsMinList] at h
    cases hxs : jsMinList xs with
    | none =>
      rw [hxs] at h
      simp at h
      rw [jsMinList_eq_none_iff] at hxs
      subst hxs
      simp [h]
    | some m =>
      rw [hxs] at h
      simp at h
      subst h
      intro y hy
      rcases List.mem_cons.mp hy with hy | hy
      · subst hy; exact min_le_left _ _
      · exact le_trans (min_le_right _ _) (ih hxs y hy)

theorem exceptMap_ok {α β ε : Type} {f : α → Except ε β} :
    ∀ {xs : List α} {ys : List β}, exceptMap f xs = .ok ys →
      ys.length = xs.length ∧
      ∀ i (h1 : i < xs.length) (h2 : i < ys.length), f xs[i] = .ok ys[i] := by
  intro xs
  induction xs with
  | nil =>
    intro ys h
    simp only [exceptMap] at h
    cases h
    simp
  | cons x xs ih =>
    intro ys h
    simp only [exceptMap] at h
    cases hx : f x with
    | error e => rw [hx] at h; cases h
    | ok y =>
      rw [hx] at h
      cases hxs : exceptMap f xs with
      | error e => rw [hxs] at h; cases h
      | ok ys' =>
        rw [hxs] at h
        cases h
        obtain ⟨hlen, hget⟩ := ih hxs
        refine ⟨by simp [hlen], ?_⟩
        intro i h1 h2
        cases i with
        | zero => simpa using hx
        | succ j =>
          simp only [List.getElem_cons_succ]
          exact hget j (by simpa using h1) (by simpa using h2)

/-- Evaluation of the full `getLowestHotelPrices` pipeline on a successful
response whose first hotel has a non-empty currency code, under valid
inputs. -/
theorem V2.getLowestHotelPricesRun_ok (hotelCode : String) (startDate endDate : Int)
    (hotel : WindowsHotel) (rest : List WindowsHotel)
    (hcode : hotelCode ≠ "") (h62 : endDate - startDate + 1 ≤ 62)
    (h0 : 0 ≤ endDate - startDate + 1) (hcur : hotel.currencyCode ≠ "") :
    V2.getLowestHotelPricesRun hotelCode startDate endDate (.ok ⟨hotel :: rest⟩) =
      .ok { hotelCode := hotelCode, currencyCode := hotel.currencyCode,
            prices := ((List.range (endDate - startDate + 1).toNat).map
              (fun (i : Nat) => startDate + (i : Int))).map
              (V2.lowestPriceDay (ratesCombined hotel.rates)) } := by
  unfold V2.getLowestHotelPricesRun V2.getLowestHotelPricesValidate
    V2.getLowestHotelPricesNormalize jsNewArrayLen
  simp only [if_neg hcode, if_neg (show ¬ endDate - startDate + 1 > 62 by omega),
    if_neg (show ¬ endDate - startDate + 1 < 0 by omega), if_neg hcur, List.head?]

/-- Evaluation of the full `getHotelPrices` pipeline (earlier revision) on
a successful response whose first hotel has rate entries, under valid
inputs. -/
theorem V1.getHotelPricesRun_ok (hotelId : String) (startDate endDate : Int)
    (hotel : WindowsHotel) (rest : List WindowsHotel)
    (hcode : hotelId ≠ "") (h60 : endDate - startDate + 1 ≤ 60)
    (h0 : 0 ≤ endDate - startDate + 1) (hrates : hotel.rates ≠ []) :
    V1.getHotelPricesRun hotelId startDate endDate (.ok ⟨hotel :: rest⟩) =
      .ok (((List.range (endDate - startDate + 1).toNat).map
        (fun (i : Nat) => startDate + (i : Int))).map (fun checkinDate =>
          let day := V2.lowestPriceDay (ratesCombined hotel.rates) checkinDate
          { hotelId := hotelId, checkinDate := checkinDate, cashPrice := day.cashPrice,
            currencyCode := hotel.currencyCode, points := day.points })) := by
  unfold V1.getHotelPricesRun V1.getHotelPricesValidate jsNewArrayLen
    V1.getHotelPricesNormalize
  simp only [if_neg hcode, if_neg (show ¬ endDate - startDate + 1 > 60 by omega),
    if_neg (show ¬ endDate - startDate + 1 < 0 by omega), List.head?,
    if_neg (show ¬ hotel.rates.length = 0 by simpa [List.length_eq_zero] using hrates)]

/-! ### Claim theorems -/

/-- C1: for every valid start/end date pair with the start date not after
the end date and inclusive day count within the ceiling (62 for
`getLowestHotelPrices`, 60 for `getHotelPrices`), the price-calendar
result contains exactly `endDate - startDate + 1` entries, one per
calendar date in ascending order (`checkinDate` of the `i`-th entry is
`startDate + i`), with an entry present for every date regardless of the
rate windows — in particular also for dates whose cash and points prices
are both null. -/
theorem getLowestHotelPrices_calendar_complete (hotelCode : String)
    (startDate endDate : Int) (hotel : WindowsHotel) (rest : List WindowsHotel)
    (hcode : hotelCode ≠ "") (hle : startDate ≤ endDate) :
    (endDate - startDate + 1 ≤ 62 → hotel.currencyCode ≠ "" →
      ∃ r, V2.getLowestHotelPricesRun hotelCode startDate endDate (.ok ⟨hotel :: rest⟩) =
          .ok r ∧
        r.prices.length = (endDate - startDate + 1).toNat ∧
        (∀ i (hi : i < r.prices.length), (r.prices[i]).checkinDate = startDate + i)) ∧
    (endDate - startDate + 1 ≤ 60 → hotel.rates ≠ [] →
      ∃ l, V1.getHotelPricesRun hotelCode startDate endDate (.ok ⟨hotel :: rest⟩) =
          .ok l ∧
        l.length = (endDate - startDate + 1).toNat ∧
        (∀ i (hi : i < l.length), (l[i]).checkinDate = startDate + i)) := by
  constructor
  · intro h62 hcur
    refine ⟨_, V2.getLowestHotelPricesRun_ok hotelCode startDate endDate hotel rest
      hcode h62 (by omega) hcur, ?_, ?_⟩
    · simp
    · intro i hi
      simp only [List.length_map, List.length_range] at hi
      simp [V2.lowestPriceDay]
  · intro h60 hrates
    refine ⟨_, V1.getHotelPricesRun_ok hotelCode startDate endDate hotel rest
      hcode h60 (by omega) hrates, ?_, ?_⟩
    · simp
    · intro i hi
      simp only [List.length_map, List.length_range] at hi
      simp

/-- C1 witness: a three-day request against a hotel with an empty rate
list resolves with three entries for the three consecutive dates (all of
them null-priced) in both revisions. -/
theorem getLowestHotelPrices_calendar_complete_witness :
    (((2 : Int) - 0 + 1 ≤ 62 → ({ currencyCode := "EUR", rates := [] } : WindowsHotel).currencyCode ≠ "" →
      ∃ r, V2.getLowestHotelPricesRun "ANRAW" 0 2 (.ok ⟨[{ currencyCode := "EUR", rates := [] }]⟩) =
          .ok r ∧
        r.prices.length = ((2 : Int) - 0 + 1).toNat ∧
        (∀ i (hi : i < r.prices.length), (r.prices[i]).checkinDate = 0 + i)) ∧
    ((2 : Int) - 0 + 1 ≤ 60 → ({ currencyCode := "EUR", rates := [] } : WindowsHotel).rates ≠ [] →
      ∃ l, V1.getHotelPricesRun "ANRAW" 0 2 (.ok ⟨[{ currencyCode := "EUR", rates := [] }]⟩) =
          .ok l ∧
        l.length = ((2 : Int) - 0 + 1).toNat ∧
        (∀ i (hi : i < l.length), (l[i]).checkinDate = 0 + i))) ∧
    V2.getLowestHotelPricesRun "ANRAW" 0 2 (.ok ⟨[{ currencyCode := "EUR", rates := [] }]⟩) =
      .ok { hotelCode := "ANRAW", currencyCode := "EUR",
            prices := [⟨0, none, none⟩, ⟨1, none, none⟩, ⟨2, none, none⟩] } :=
  ⟨getLowestHotelPrices_calendar_complete "ANRAW" 0 2
    { currencyCode := "EUR", rates := [] } [] (by decide) (by decide), by decide⟩

/-- Membership in the list of present field values among the windows
matching a check-in date. -/
theorem mem_matching_field {rc : List RateWindow} {d : Int}
    {f : RateWindow → Option ℚ} {q : ℚ} :
    (q ∈ (rc.filter (fun w => w.startDate == d && (f w).isSome)).filterMap f) ↔
      ∃ w ∈ rc, w.startDate = d ∧ f w = some q := by
  simp only [List.mem_filterMap, List.mem_filter, Bool.and_eq_true, beq_iff_eq]
  constructor
  · rintro ⟨w, ⟨⟨hw, hd, _⟩, hq⟩⟩
    exact ⟨w, hw, hd, hq⟩
  · rintro ⟨w, hw, hd, hq⟩
    exact ⟨w, ⟨hw, hd, by simp [hq]⟩, hq⟩

/-- Behaviour of the filter/`Math.min`/null-conversion combination on one
optional field: with at least one matching window carrying the field, the
result is the least present value; with none, it is `none`. -/
theorem minField_spec (rc : List RateWindow) (d : Int) (f : RateWindow → Option ℚ) :
    ((∃ w ∈ rc, w.startDate = d ∧ (f w).isSome) →
      ∃ q, jsMinList ((rc.filter (fun w => w.startDate == d && (f w).isSome)).filterMap f) =
          some q ∧
        (∃ w ∈ rc, w.startDate = d ∧ f w = some q) ∧
        ∀ w ∈ rc, w.startDate = d → ∀ a, f w = some a → q ≤ a) ∧
    ((∀ w ∈ rc, w.startDate = d → f w = none) →
      jsMinList ((rc.filter (fun w => w.startDate == d && (f w).isSome)).filterMap f) =
        none) := by
  constructor
  · rintro ⟨w, hw, hd, hsome⟩
    obtain ⟨a, ha⟩ := Option.isSome_iff_exists.mp hsome
    have hne : (rc.filter (fun w => w.startDate == d && (f w).isSome)).filterMap f ≠ [] := by
      intro hnil
      have : a ∈ (rc.filter (fun w => w.startDate == d && (f w).isSome)).filterMap f :=
        mem_matching_field.mpr ⟨w, hw, hd, ha⟩
      simp [hnil] at this
    obtain ⟨q, hq⟩ := Option.ne_none_iff_exists.mp
      (fun h => hne ((jsMinList_eq_none_iff _).mp h))
    refine ⟨q, hq.symm, mem_matching_field.mp (jsMinList_mem hq.symm), ?_⟩
    intro w' hw' hd' a' ha'
    exact jsMinList_le hq.symm a' (mem_matching_field.mpr ⟨w', hw', hd', ha'⟩)
  · intro hnone
    rw [jsMinList_eq_none_iff, List.eq_nil_iff_forall_not_mem]
    intro q hq
    obtain ⟨w, hw, hd, hsome⟩ := mem_matching_field.mp hq
    rw [hnone w hw hd] at hsome
    cases hsome

/-- C2: in the price calendar of `getLowestHotelPrices`, for every
requested date: if at least one rate window starts on that date and
carries the cash (resp. points) field, the output is the minimum over
exactly the present values — so a genuine zero-cost window yields
`cashPrice` 0, never null; if no matching window carries the field, the
output for that date is null, never 0. -/
theorem getLowestHotelPrices_null_vs_zero (rc : List RateWindow) (d : Int) :
    ((∃ w ∈ rc, w.startDate = d ∧ w.totalAmount.isSome) →
      ∃ q, (V2.lowestPriceDay rc d).cashPrice = some q ∧
        (∃ w ∈ rc, w.startDate = d ∧ w.totalAmount = some q) ∧
        ∀ w ∈ rc, w.startDate = d → ∀ a, w.totalAmount = some a → q ≤ a) ∧
    ((∀ w ∈ rc, w.startDate = d → w.totalAmount = none) →
      (V2.lowestPriceDay rc d).cashPrice = none) ∧
    ((∃ w ∈ rc, w.startDate = d ∧ w.totalPoints.isSome) →
      ∃ q, (V2.lowestPriceDay rc d).points = some q ∧
        (∃ w ∈ rc, w.startDate = d ∧ w.totalPoints = some q) ∧
        ∀ w ∈ rc, w.startDate = d → ∀ a, w.totalPoints = some a → q ≤ a) ∧
    ((∀ w ∈ rc, w.startDate = d → w.totalPoints = none) →
      (V2.lowestPriceDay rc d).points = none) := by
  have hcash := minField_spec rc d (fun w => w.totalAmount)
  have hpts := minField_spec rc d (fun w => w.totalPoints)
  simp only [V2.lowestPriceDay]
  exact ⟨hcash.1, hcash.2, hpts.1, hpts.2⟩

/-- C2 witness: one window starting on the requested day with a zero cash
amount and no points field yields `cashPrice` 0 (not null) and `points`
null; and on a day with no matching window both are null. -/
theorem getLowestHotelPrices_null_vs_zero_witness :
    (V2.lowestPriceDay [{ startDate := 1, totalPoints := none, totalAmount := some 0 }] 1).cashPrice =
        some 0 ∧
    (V2.lowestPriceDay [{ startDate := 1, totalPoints := none, totalAmount := some 0 }] 1).points =
        none ∧
    (V2.lowestPriceDay [{ startDate := 1, totalPoints := none, totalAmount := some 0 }] 2).cashPrice =
        none := by
  have h := getLowestHotelPrices_null_vs_zero
    [{ startDate := 1, totalPoints := none, totalAmount := some 0 }] 1
  obtain ⟨q, hq, ⟨w, hw, -, hqa⟩, -⟩ := h.1 ⟨_, List.mem_singleton_self _, rfl, rfl⟩
  have hq0 : q = 0 := by
    rw [List.mem_singleton] at hw
    subst hw
    simpa using hqa.symm
  subst hq0
  refine ⟨hq, h.2.2.2 ?_, (getLowestHotelPrices_null_vs_zero
    [{ startDate := 1, totalPoints := none, totalAmount := some 0 }] 2).2.1 ?_⟩
  · intro w hw hd
    rw [List.mem_singleton] at hw
    subst hw
    rfl
  · intro w hw hd
    rw [List.mem_singleton] at hw
    subst hw
    simp at hd

/-- C3 counterexample: `getLowestHotelPrices` has no catch handler, so an
upstream transport failure (here a non-2xx response error) is leaked to
the caller as the raw transport exception instead of a taxonomy error. -/
theorem getLowestHotelPrices_leaks_transport_cex :
    V2.getLowestHotelPricesNormalize "ANRAW" 0 1 (.transportError "ERR_NON_2XX_3XX_RESPONSE") =
      .error (.transport "ERR_NON_2XX_3XX_RESPONSE") := rfl

/-- C3 amended: only `getHotelDetails` catches upstream failures, always
resolving with a DTO or rejecting with a single wrapped `Error`;
`getLowestHotelPrices` and `getLowestAreaPrices` have no catch handler and
reject with the raw transport exception on any transport failure. -/
theorem error_propagation_amended :
    (∀ (hotelCode : String) (resp : Upstream HotelInfo),
      (∃ d, getHotelDetailsNormalize hotelCode resp = .ok d) ∨
      (∃ m, getHotelDetailsNormalize hotelCode resp = .error (.error m))) ∧
    (∀ (hotelCode : String) (startDate endDate : Int) (c : String),
      V2.getLowestHotelPricesNormalize hotelCode startDate endDate (.transportError c) =
        .error (.transport c)) ∧
    (∀ c : String,
      V2.getLowestAreaPricesNormalize (.transportError c) = .error (.transport c)) := by
  refine ⟨?_, fun _ _ _ _ => rfl, fun _ => rfl⟩
  intro hotelCode resp
  unfold getHotelDetailsNormalize
  cases resp with
  | transportError c => exact Or.inr ⟨_, rfl⟩
  | ok info =>
    cases hb : getHotelDetailsBody hotelCode info with
    | ok d => exact Or.inl ⟨d, by simp [hb]⟩
    | error e =>
      exact Or.inr ⟨if jsErrCode e = some "ERR_NON_2XX_3XX_RESPONSE"
        then "Unknown or invalid hotelCode" else jsErrString e, by simp [hb]⟩

/-- C4 counterexample: with the end date strictly before the start date,
`getLowestHotelPrices` raises no validation error — validation succeeds
and a request is produced. -/
theorem endBeforeStart_not_validated_cex :
    V2.getLowestHotelPricesValidate "ANRAW" 10 9 =
      .ok { hotelCode := "ANRAW", startDate := 10, endDate := 9 } := by decide

/-- C4 amended: neither revision checks that the end date is not before
the start date; the only date validation is the day-count ceiling.  With
the end date before the start date, `getLowestHotelPrices` passes
validation and issues the request; `getHotelPrices` passes validation when
the inclusive day count is exactly 0 and otherwise raises a `RangeError`
from building the dates array (before the request, but not a validation
error). -/
theorem endBeforeStart_not_validated_amended (hotelCode : String)
    (startDate endDate : Int) (hcode : hotelCode ≠ "") (hlt : endDate < startDate) :
    (∃ req, V2.getLowestHotelPricesValidate hotelCode startDate endDate = .ok req) ∧
    (endDate = startDate - 1 →
      ∃ dates, V1.getHotelPricesValidate hotelCode startDate endDate = .ok dates) ∧
    (endDate < startDate - 1 →
      V1.getHotelPricesValidate hotelCode startDate endDate =
        .error (.rangeError "Invalid array length")) := by
  refine ⟨?_, ?_, ?_⟩
  · unfold V2.getLowestHotelPricesValidate
    simp only [if_neg hcode, if_neg (show ¬ endDate - startDate + 1 > 62 by omega)]
    exact ⟨_, rfl⟩
  · intro h0
    unfold V1.getHotelPricesValidate jsNewArrayLen
    simp only [if_neg hcode, if_neg (show ¬ endDate - startDate + 1 > 60 by omega),
      if_neg (show ¬ endDate - startDate + 1 < 0 by omega)]
    exact ⟨_, rfl⟩
  · intro hlt2
    unfold V1.getHotelPricesValidate jsNewArrayLen
    simp only [if_neg hcode, if_neg (show ¬ endDate - startDate + 1 > 60 by omega),
      if_pos (show endDate - startDate + 1 < 0 by omega)]

/-- C4 amended witness: at start 10 / end 9 both revisions pass
validation; at start 10 / end 8 the earlier revision raises the
`RangeError`. -/
theorem endBeforeStart_not_validated_amended_witness :
    ((∃ req, V2.getLowestHotelPricesValidate "ANRAW" 10 9 = .ok req) ∧
      ((9 : Int) = 10 - 1 →
        ∃ dates, V1.getHotelPricesValidate "ANRAW" 10 9 = .ok dates) ∧
      ((9 : Int) < 10 - 1 →
        V1.getHotelPricesValidate "ANRAW" 10 9 =
          .error (.rangeError "Invalid array length"))) ∧
    V1.getHotelPricesValidate "ANRAW" 10 8 = .error (.rangeError "Invalid array length") :=
  ⟨endBeforeStart_not_validated_amended "ANRAW" 10 9 (by decide) (by decide),
    (endBeforeStart_not_validated_amended "ANRAW" 10 8 (by decide) (by decide)).2.2
      (by decide)⟩

/-- C5: as soon as the inclusive day count exceeds the ceiling (62 for
`getLowestHotelPrices`, 60 for `getHotelPrices`), validation throws the
ceiling error synchronously, and the whole pipeline rejects with that
error whatever the upstream response would have been — no network call is
issued. -/
theorem dayCount_ceiling_before_request (hotelCode : String)
    (startDate endDate : Int) (hcode : hotelCode ≠ "") :
    (endDate - startDate + 1 > 62 →
      V2.getLowestHotelPricesValidate hotelCode startDate endDate =
        .error (.error "Please limit the number of days to 62 or less") ∧
      ∀ resp, V2.getLowestHotelPricesRun hotelCode startDate endDate resp =
        .error (.error "Please limit the number of days to 62 or less")) ∧
    (endDate - startDate + 1 > 60 →
      V1.getHotelPricesValidate hotelCode startDate endDate =
        .error (.error "Please limit the number of days to 60 or less") ∧
      ∀ resp, V1.getHotelPricesRun hotelCode startDate endDate resp =
        .error (.error "Please limit the number of days to 60 or less")) := by
  constructor
  · intro h62
    have hv : V2.getLowestHotelPricesValidate hotelCode startDate endDate =
        .error (.error "Please limit the number of days to 62 or less") := by
      unfold V2.getLowestHotelPricesValidate
      simp only [if_neg hcode, if_pos h62]
    exact ⟨hv, fun resp => by unfold V2.getLowestHotelPricesRun; rw [hv]⟩
  · intro h60
    have hv : V1.getHotelPricesValidate hotelCode startDate endDate =
        .error (.error "Please limit the number of days to 60 or less") := by
      unfold V1.getHotelPricesValidate
      simp only [if_neg hcode, if_pos h60]
    exact ⟨hv, fun resp => by unfold V1.getHotelPricesRun; rw [hv]⟩

/-- C5 witness: a 63-day request (start 0, end 62) trips both ceilings
before any response is consulted. -/
theorem dayCount_ceiling_before_request_witness :
    ((62 : Int) - 0 + 1 > 62 →
      V2.getLowestHotelPricesValidate "ANRAW" 0 62 =
        .error (.error "Please limit the number of days to 62 or less") ∧
      ∀ resp, V2.getLowestHotelPricesRun "ANRAW" 0 62 resp =
        .error (.error "Please limit the number of days to 62 or less")) ∧
    ((62 : Int) - 0 + 1 > 60 →
      V1.getHotelPricesValidate "ANRAW" 0 62 =
        .error (.error "Please limit the number of days to 60 or less") ∧
      ∀ resp, V1.getHotelPricesRun "ANRAW" 0 62 resp =
        .error (.error "Please limit the number of days to 60 or less")) :=
  dayCount_ceiling_before_request "ANRAW" 0 62 (by decide)

/-- C6 counterexample: a hotel reported with zero rate entries but a
non-empty currency code does not trigger the domain error in
`getLowestHotelPrices` — the operation resolves with an all-null
calendar. -/
theorem zeroRates_no_error_cex :
    V2.getLowestHotelPricesNormalize "ANRAW" 0 1 (.ok ⟨[{ currencyCode := "EUR", rates := [] }]⟩) =
      .ok { hotelCode := "ANRAW", currencyCode := "EUR",
            prices := [⟨0, none, none⟩, ⟨1, none, none⟩] } := by decide

/-- C6 amended: each revision tests exactly one sentinel.
`getLowestHotelPrices` signals the domain error precisely when the
currency code is empty (zero rate entries with a non-empty currency yield
a successful all-null calendar), while the earlier `getHotelPrices`
signals it precisely when the rate list is empty (an empty currency with
non-empty rates is not an error there). -/
theorem sentinel_per_revision_amended (hotelCode hotelId : String)
    (startDate endDate : Int) (hse : startDate ≤ endDate)
    (hotel : WindowsHotel) (rest : List WindowsHotel) :
    (hotel.currencyCode = "" →
      V2.getLowestHotelPricesNormalize hotelCode startDate endDate (.ok ⟨hotel :: rest⟩) =
        .error (.error "Unknown or invalid hotelCode")) ∧
    (hotel.currencyCode ≠ "" →
      ∃ r, V2.getLowestHotelPricesNormalize hotelCode startDate endDate
        (.ok ⟨hotel :: rest⟩) = .ok r) ∧
    (hotel.rates = [] → ∀ dates,
      V1.getHotelPricesNormalize hotelId dates (.ok ⟨hotel :: rest⟩) =
        .error (.error "Unknown or invalid hotelId")) ∧
    (hotel.rates ≠ [] → ∀ dates,
      ∃ l, V1.getHotelPricesNormalize hotelId dates (.ok ⟨hotel :: rest⟩) = .ok l) := by
  refine ⟨?_, ?_, ?_, ?_⟩
  · intro hcur
    unfold V2.getLowestHotelPricesNormalize jsNewArrayLen
    simp only [List.head?, if_neg (show ¬ endDate - startDate + 1 < 0 by omega),
      if_pos hcur]
  · intro hcur
    unfold V2.getLowestHotelPricesNormalize jsNewArrayLen
    simp only [List.head?, if_neg (show ¬ endDate - startDate + 1 < 0 by omega),
      if_neg hcur]
    exact ⟨_, rfl⟩
  · intro hrates dates
    unfold V1.getHotelPricesNormalize
    simp only [List.head?, if_pos (show hotel.rates.length = 0 by simp [hrates])]
  · intro hrates dates
    unfold V1.getHotelPricesNormalize
    simp only [List.head?,
      if_neg (show ¬ hotel.rates.length = 0 by simpa [List.length_eq_zero] using hrates)]
    exact ⟨_, rfl⟩

/-- C6 amended witness: the empty-rates hotel with currency `EUR` resolves
in the current revision and errors in the earlier one. -/
theorem sentinel_per_revision_amended_witness :
    (({ currencyCode := "EUR", rates := [] } : WindowsHotel).currencyCode ≠ "" →
      ∃ r, V2.getLowestHotelPricesNormalize "ANRAW" 0 1
        (.ok ⟨[{ currencyCode := "EUR", rates := [] }]⟩) = .ok r) ∧
    (({ currencyCode := "EUR", rates := [] } : WindowsHotel).rates = [] → ∀ dates,
      V1.getHotelPricesNormalize "ANRAW" dates
        (.ok ⟨[{ currencyCode := "EUR", rates := [] }]⟩) =
        .error (.error "Unknown or invalid hotelId")) :=
  ⟨(sentinel_per_revision_amended "ANRAW" "ANRAW" 0 1 (by decide)
      { currencyCode := "EUR", rates := [] } []).2.1,
    (sentinel_per_revision_amended "ANRAW" "ANRAW" 0 1 (by decide)
      { currencyCode := "EUR", rates := [] } []).2.2.1⟩

/-- C7: in the `getStayPrices` price list, the entry produced for a
reward-night offer has `cashPrice` null and `points` an ordered list whose
head is the pure-points option (`{points, cashPrice: 0}`) followed by the
blended points+cash options in upstream order, while the entry for a cash
offer has `cashPrice` the parsed tax-inclusive decimal total and `points`
null. -/
theorem getStayPrices_offer_shape (offers : List Offer) (l : List StayPriceEntry)
    (h : V2.stayPricesOfOffers offers = .ok l) :
    l.length = offers.length ∧
    ∀ i (hi : i < offers.length) (hl : i < l.length),
      ∃ pu rest, (offers[i]).productUses = pu :: rest ∧
        (l[i]).productCode = pu.inventoryTypeCode ∧
        (l[i]).rateCode = (offers[i]).ratePlanCode ∧
        (∀ rn, (offers[i]).rewardNights = some rn →
          (l[i]).cashPrice = none ∧
          (l[i]).points = some
            (({ points := rn.pointsOnly.averageDailyPoints, cashPrice := 0 } :
                RewardPricePoint) ::
              (rn.pointsCash.options.getD []).map (fun o =>
                ({ points := o.averageDailyPoints,
                   cashPrice := o.averageDailyCash } : RewardPricePoint)))) ∧
        ((offers[i]).rewardNights = none →
          (l[i]).cashPrice = some (jsParseFloat pu.rates.totalRate.average.amountAfterTax) ∧
          (l[i]).points = none) := by
  unfold V2.stayPricesOfOffers at h
  cases hm : exceptMap V2.mapOffer offers with
  | error e => rw [hm] at h; cases h
  | ok l0 =>
    rw [hm] at h
    have hl0 : l0 = l := by
      simpa [V2.sortByRatePrice, Except.map] using h
    subst hl0
    obtain ⟨hlen, hidx⟩ := exceptMap_ok hm
    refine ⟨hlen, ?_⟩
    intro i hi hl
    have hfi := hidx i hi hl
    cases hpu : (offers[i]).productUses with
    | nil =>
      unfold V2.mapOffer at hfi
      rw [hpu] at hfi
      simp [List.head?] at hfi
    | cons pu rest =>
      refine ⟨pu, rest, rfl, ?_⟩
      unfold V2.mapOffer at hfi
      rw [hpu] at hfi
      simp only [List.head?] at hfi
      cases hrn : (offers[i]).rewardNights with
      | none =>
        rw [hrn] at hfi
        have := Except.ok.inj hfi
        rw [← this]
        simp [hrn]
      | some rn =>
        rw [hrn] at hfi
        have := Except.ok.inj hfi
        rw [← this]
        refine ⟨rfl, rfl, ?_, by simp⟩
        intro rn' hrn'
        cases hrn'
        refine ⟨rfl, ?_⟩
        cases hopts : rn.pointsCash.options with
        | none => simp [hopts]
        | some opts => simp [hopts]

/-- Concrete cash offer used by the C7 witness. -/
def exOfferCash : Offer :=
  { productUses := [{ inventoryTypeCode := "KING",
                      rates := { totalRate := { average := { amountAfterTax := "150.00" } } } }],
    ratePlanCode := "IVANI", rewardNights := none }

/-- Concrete reward-night offer used by the C7 witness. -/
def exOfferReward : Offer :=
  { productUses := [{ inventoryTypeCode := "TWIN",
                      rates := { totalRate := { average := { amountAfterTax := "0.00" } } } }],
    ratePlanCode := "IVANI",
    rewardNights := some
      { pointsOnly := { averageDailyPoints := 30000 },
        pointsCash := { options := some [{ averageDailyPoints := 20000, averageDailyCash := 50 }] } } }

/-- Price entries produced for the two C7 witness offers. -/
def exStayEntries : List StayPriceEntry :=
  [{ productCode := "KING", rateCode := "IVANI",
     cashPrice := some (jsParseFloat "150.00"), points := none },
   { productCode := "TWIN", rateCode := "IVANI", cashPrice := none,
     points := some [{ points := 30000, cashPrice := 0 },
                     { points := 20000, cashPrice := 50 }] }]

/-- C7 witness: the two concrete offers map to the expected entries and
satisfy the per-offer shape property. -/
theorem getStayPrices_offer_shape_witness :
    exStayEntries.length = [exOfferCash, exOfferReward].length ∧
    ∀ i (hi : i < ([exOfferCash, exOfferReward] : List Offer).length)
        (hl : i < exStayEntries.length),
      ∃ pu rest, (([exOfferCash, exOfferReward] : List Offer)[i]).productUses = pu :: rest ∧
        (exStayEntries[i]).productCode = pu.inventoryTypeCode ∧
        (exStayEntries[i]).rateCode = (([exOfferCash, exOfferReward] : List Offer)[i]).ratePlanCode ∧
        (∀ rn, (([exOfferCash, exOfferReward] : List Offer)[i]).rewardNights = some rn →
          (exStayEntries[i]).cashPrice = none ∧
          (exStayEntries[i]).points = some
            (({ points := rn.pointsOnly.averageDailyPoints, cashPrice := 0 } :
                RewardPricePoint) ::
              (rn.pointsCash.options.getD []).map (fun o =>
                ({ points := o.averageDailyPoints,
                   cashPrice := o.averageDailyCash } : RewardPricePoint)))) ∧
        ((([exOfferCash, exOfferReward] : List Offer)[i]).rewardNights = none →
          (exStayEntries[i]).cashPrice =
            some (jsParseFloat pu.rates.totalRate.average.amountAfterTax) ∧
          (exStayEntries[i]).points = none) :=
  getStayPrices_offer_shape [exOfferCash, exOfferReward] exStayEntries rfl

/-- C8: every entry of the area-price result corresponds to an upstream
hotel whose availability status is exactly `OPEN`, every open hotel
appears, and no other hotel contributes an entry (the output length is the
number of open hotels, so closed hotels are dropped rather than
null-priced) — in both revisions. -/
theorem getLowestAreaPrices_open_only (hotels : List AreaHotel) (checkinDate : String) :
    (∃ out, V2.getLowestAreaPricesNormalize (.ok ⟨hotels⟩) = .ok out ∧
      (∀ e ∈ out, ∃ h ∈ hotels, h.availabilityStatus = "OPEN" ∧ e = V2.mapAreaHotel h) ∧
      (∀ h ∈ hotels, h.availabilityStatus = "OPEN" → V2.mapAreaHotel h ∈ out) ∧
      out.length = (hotels.filter (fun h => h.availabilityStatus == "OPEN")).length) ∧
    (∃ out, V1.getAreaPricesNormalize checkinDate (.ok ⟨hotels⟩) = .ok out ∧
      (∀ e ∈ out, ∃ h ∈ hotels,
        h.availabilityStatus = "OPEN" ∧ e = V1.mapAreaHotel checkinDate h) ∧
      (∀ h ∈ hotels, h.availabilityStatus = "OPEN" →
        V1.mapAreaHotel checkinDate h ∈ out) ∧
      out.length = (hotels.filter (fun h => h.availabilityStatus == "OPEN")).length) := by
  constructor
  · refine ⟨_, rfl, ?_, ?_, by simp⟩
    · intro e he
      simp only [List.mem_map, List.mem_filter, beq_iff_eq] at he
      obtain ⟨h, ⟨hmem, hopen⟩, hrfl⟩ := he
      exact ⟨h, hmem, hopen, hrfl.symm⟩
    · intro h hmem hopen
      exact List.mem_map_of_mem _ (List.mem_filter.mpr ⟨hmem, by simp [hopen]⟩)
  · refine ⟨_, rfl, ?_, ?_, by simp⟩
    · intro e he
      simp only [List.mem_map, List.mem_filter, beq_iff_eq] at he
      obtain ⟨h, ⟨hmem, hopen⟩, hrfl⟩ := he
      exact ⟨h, hmem, hopen, hrfl.symm⟩
    · intro h hmem hopen
      exact List.mem_map_of_mem _ (List.mem_filter.mpr ⟨hmem, by simp [hopen]⟩)

/-- Concrete open hotel for the C8 witness. -/
def exAreaOpen : AreaHotel :=
  { hotelMnemonic := "ANRAW", propertyCurrency := "EUR", availabilityStatus := "OPEN",
    lowestPointsOnlyCost := some { points := 30000 },
    lowestCashOnlyCost := { amountAfterTax := "150.00" } }

/-- Concrete closed hotel for the C8 witness. -/
def exAreaClosed : AreaHotel :=
  { hotelMnemonic := "BRUBE", propertyCurrency := "EUR", availabilityStatus := "CLOSED",
    lowestPointsOnlyCost := none,
    lowestCashOnlyCost := { amountAfterTax := "99.00" } }

/-- C8 witness: with one open and one closed hotel, both revisions return
exactly the open hotel's entry. -/
theorem getLowestAreaPrices_open_only_witness :
    (∃ out, V2.getLowestAreaPricesNormalize (.ok ⟨[exAreaOpen, exAreaClosed]⟩) = .ok out ∧
      (∀ e ∈ out, ∃ h ∈ [exAreaOpen, exAreaClosed],
        h.availabilityStatus = "OPEN" ∧ e = V2.mapAreaHotel h) ∧
      (∀ h ∈ [exAreaOpen, exAreaClosed], h.availabilityStatus = "OPEN" →
        V2.mapAreaHotel h ∈ out) ∧
      out.length = (([exAreaOpen, exAreaClosed] : List AreaHotel).filter
        (fun h => h.availabilityStatus == "OPEN")).length) ∧
    (∃ out, V1.getAreaPricesNormalize "2026-01-01" (.ok ⟨[exAreaOpen, exAreaClosed]⟩) = .ok out ∧
      (∀ e ∈ out, ∃ h ∈ [exAreaOpen, exAreaClosed],
        h.availabilityStatus = "OPEN" ∧ e = V1.mapAreaHotel "2026-01-01" h) ∧
      (∀ h ∈ [exAreaOpen, exAreaClosed], h.availabilityStatus = "OPEN" →
        V1.mapAreaHotel "2026-01-01" h ∈ out) ∧
      out.length = (([exAreaOpen, exAreaClosed] : List AreaHotel).filter
        (fun h => h.availabilityStatus == "OPEN")).length) :=
  getLowestAreaPrices_open_only [exAreaOpen, exAreaClosed] "2026-01-01"

/-- Concrete hotel-details payload whose address carries no state object
at all (as for countries that do not use states). -/
def exHotelInfoNoState : HotelInfo :=
  { brandInfo := { brandCode := "INDG" },
    location := { closestCity := "Antwerp" },
    profile := { roomsIncludingSuitesCount := 100,
                 latLong := { longitude := 4, latitude := 51 },
                 name := "Antwerp - City Centre",
                 shortDescription := "short", longDescription := "long" },
    address := { street1 := some "Koningin Astridplein 43", street4 := none,
                 zip := "2018", city := "Antwerp", state := none,
                 country := { code := "BE" },
                 consumerFriendlyURL := some "www.hotelindigo.com/antwerp" } }

/-- Concrete hotel-details payload whose address carries a state object
with a `code` sub-field. -/
def exHotelInfoWithState : HotelInfo :=
  { brandInfo := { brandCode := "HOLI" },
    location := { closestCity := "Austin" },
    profile := { roomsIncludingSuitesCount := 200,
                 latLong := { longitude := -97, latitude := 30 },
                 name := "Austin Downtown",
                 shortDescription := "short", longDescription := "long" },
    address := { street1 := some "Main Street 1", street4 := none,
                 zip := "78701", city := "Austin",
                 state := some { code := some "TX", name := some "Texas" },
                 country := { code := "US" },
                 consumerFriendlyURL := none } }

/-- C9 counterexample: on a payload whose address has no state object,
`getHotelDetails` does not return `state` null — the `in` operator throws
a `TypeError`, which the catch handler re-throws wrapped, so the
operation rejects. -/
theorem hotelDetails_absent_state_errors_cex :
    getHotelDetailsNormalize "ANRAW" (.ok exHotelInfoNoState) =
      .error (.error "TypeError: Cannot use in operator to search for code in undefined") :=
  rfl

/-- C9 amended: when the upstream address carries a state object,
`getHotelDetails` resolves and its `state` field is the object's optional
`code` sub-field (null when the sub-field is missing); when the state
object is entirely absent, the operation rejects with a wrapped
`TypeError` instead of returning `state` null. -/
theorem hotelDetails_state_amended (hotelCode : String) (info : HotelInfo) :
    (∀ st, info.address.state = some st →
      ∃ d, getHotelDetailsNormalize hotelCode (.ok info) = .ok d ∧ d.state = st.code) ∧
    (info.address.state = none →
      ∃ m, getHotelDetailsNormalize hotelCode (.ok info) = .error (.error m)) := by
  constructor
  · intro st hst
    unfold getHotelDetailsNormalize getHotelDetailsBody
    simp only [hst]
    exact ⟨_, rfl, rfl⟩
  · intro hst
    unfold getHotelDetailsNormalize getHotelDetailsBody
    simp only [hst, jsErrCode, jsErrString]
    exact ⟨_, rfl⟩

/-- C9 amended witness: the payload with a Texas state object resolves
with `state = some "TX"`; the payload without a state object rejects. -/
theorem hotelDetails_state_amended_witness :
    (∃ d, getHotelDetailsNormalize "ANRAW" (.ok exHotelInfoWithState) = .ok d ∧
      d.state = some "TX") ∧
    (∃ m, getHotelDetailsNormalize "ANRAW" (.ok exHotelInfoNoState) =
      .error (.error m)) := by
  constructor
  · obtain ⟨d, hd, hs⟩ := (hotelDetails_state_amended "ANRAW" exHotelInfoWithState).1
      { code := some "TX", name := some "Texas" } rfl
    exact ⟨d, hd, by rw [hs]⟩
  · exact (hotelDetails_state_amended "ANRAW" exHotelInfoNoState).2 rfl

/-- C10: the only validation applied to the radius option of
`getLowestAreaPrices` (and of the earlier `getAreaPrices`) is the
JavaScript comparison `radius > 100`: the radius error is raised exactly
when that comparison is true, so a negative radius, zero, or a
non-numeric value for which the comparison is false passes validation and
is forwarded unchanged in the request body. -/
theorem areaPrices_radius_validation (coordinates : List JsValue) (radius : JsValue)
    (unit : String) (checkinDate : String) (adults children : ℚ)
    (hcoord : coordinates.length = 2 ∧ coordinates.all jsTypeofNumber)
    (hdate : isValidYMD checkinDate = true)
    (hunit : ["KM", "MI"].contains (jsToUpperCase unit) = true) :
    (jsGreaterThan radius 100 = true →
      V2.getLowestAreaPricesValidate coordinates radius unit checkinDate adults children =
        .error (.error "The value of radius should not be greater than 100") ∧
      V1.getAreaPricesValidate coordinates radius unit checkinDate =
        .error (.error "The value of radius should not be greater than 100")) ∧
    (jsGreaterThan radius 100 = false →
      (∃ body, V2.getLowestAreaPricesValidate coordinates radius unit checkinDate
          adults children = .ok body ∧ body.radius = radius) ∧
      (∃ body, V1.getAreaPricesValidate coordinates radius unit checkinDate = .ok body ∧
        body.radius = radius)) := by
  constructor
  · intro hgt
    unfold V2.getLowestAreaPricesValidate V1.getAreaPricesValidate
    rw [if_neg (not_not_intro hcoord), if_neg (not_not_intro hdate),
      if_neg (not_not_intro hunit), if_pos hgt,
      if_neg (not_not_intro hcoord), if_neg (not_not_intro hdate),
      if_neg (not_not_intro hunit), if_pos hgt]
    exact ⟨rfl, rfl⟩
  · intro hgt
    unfold V2.getLowestAreaPricesValidate V1.getAreaPricesValidate
    rw [if_neg (not_not_intro hcoord), if_neg (not_not_intro hdate),
      if_neg (not_not_intro hunit), if_neg (by simp [hgt]),
      if_neg (not_not_intro hcoord), if_neg (not_not_intro hdate),
      if_neg (not_not_intro hunit), if_neg (by simp [hgt])]
    exact ⟨⟨_, rfl, rfl⟩, ⟨_, rfl, rfl⟩⟩

/-- C10 witness: radius 200 is rejected by both revisions; radius -5 and
the non-numeric radius `"abc"` (whose comparison with 100 is false) both
pass validation and appear unchanged in the request body. -/
theorem areaPrices_radius_validation_witness :
    (jsGreaterThan (.num 200) 100 = true →
      V2.getLowestAreaPricesValidate [.num 4, .num 51] (.num 200) "km" "2026-01-01" 1 0 =
        .error (.error "The value of radius should not be greater than 100") ∧
      V1.getAreaPricesValidate [.num 4, .num 51] (.num 200) "km" "2026-01-01" =
        .error (.error "The value of radius should not be greater than 100")) ∧
    (jsGreaterThan (.num (-5)) 100 = false →
      (∃ body, V2.getLowestAreaPricesValidate [.num 4, .num 51] (.num (-5)) "km"
          "2026-01-01" 1 0 = .ok body ∧ body.radius = .num (-5)) ∧
      (∃ body, V1.getAreaPricesValidate [.num 4, .num 51] (.num (-5)) "km" "2026-01-01" =
        .ok body ∧ body.radius = .num (-5))) ∧
    (jsGreaterThan (.str "abc") 100 = false →
      (∃ body, V2.getLowestAreaPricesValidate [.num 4, .num 51] (.str "abc") "km"
          "2026-01-01" 1 0 = .ok body ∧ body.radius = .str "abc") ∧
      (∃ body, V1.getAreaPricesValidate [.num 4, .num 51] (.str "abc") "km" "2026-01-01" =
        .ok body ∧ body.radius = .str "abc")) :=
  ⟨(areaPrices_radius_validation [.num 4, .num 51] (.num 200) "km" "2026-01-01" 1 0
      (by decide) (by decide) (by decide)).1,
   (areaPrices_radius_validation [.num 4, .num 51] (.num (-5)) "km" "2026-01-01" 1 0
      (by decide) (by decide) (by decide)).2,
   (areaPrices_radius_validation [.num 4, .num 51] (.str "abc") "km" "2026-01-01" 1 0
      (by decide) (by decide) (by decide)).2⟩

end Trippe
